import Mathlib

/-!
Shallow embedding of `core/forms.py`: the user-management forms
`UsuarioCrearForm`, `UsuarioEditarForm` and `UsuarioToggleActivoForm`.

Modelling conventions:
* A Django `User` row is a record of the fields this code touches.
* The password column is a `StoredPassword`: `set_password` stores
  `.hashed cleartext` (the framework hashes; the cleartext is kept only as
  the argument of the constructor so that equalities can be stated), while
  a hypothetical direct assignment of the cleartext would be `.raw`.
* Database lookups (`User.objects.filter(email__iexact=...)`,
  `Group.objects.get_or_create`) are functions over explicit lists of rows.
* Python string truthiness: a `cleaned_data.get` value that is missing or
  empty is modelled as `""` (both are falsy in the source's `if p1 and p2`).
* Field/validation errors are `Except String` values (`ValidationError`
  message) or `List (String × String)` pairs of (field, message) for
  `add_error`.
-/

/-- The password column of a user row. `set_password` produces `.hashed`;
a direct cleartext assignment (which the forms never perform) would be
`.raw`; `.unset` is a fresh row before any password is set. -/
inductive StoredPassword where
  | hashed (cleartext : String)
  | raw (value : String)
  | unset
deriving DecidableEq, Repr

/-- A `django.contrib.auth.models.User` row, restricted to the fields the
forms read or write. `groups` is the list of names of the groups the user
belongs to. -/
structure User where
  pk : Nat
  username : String
  first_name : String
  last_name : String
  email : String
  is_active : Bool
  is_staff : Bool
  password : StoredPassword
  groups : List String
deriving DecidableEq, Repr

/-- The group table: `Group.objects` as the list of existing group names. -/
structure DB where
  groups : List String
deriving DecidableEq, Repr

/-- `Group.objects.get_or_create(name=...)`: returns the (possibly extended)
table and the name of the fetched-or-created group. -/
def DB.get_or_create (db : DB) (name : String) : DB × String :=
  if db.groups.contains name then (db, name)
  else ({ groups := db.groups ++ [name] }, name)

/-- Python's `str.strip()`: drop leading and trailing whitespace.
(Defined over the character list so that it evaluates by `decide`.) -/
def pyStrip (s : String) : String :=
  String.mk
    (((s.data.dropWhile Char.isWhitespace).reverse.dropWhile
        Char.isWhitespace).reverse)

/-- Lower-casing used to model the case-insensitive `iexact` comparison.
(Defined over the character list so that it evaluates by `decide`.) -/
def lowerStr (s : String) : String :=
  String.mk (s.data.map Char.toLower)

/-- `email__iexact=value` over a list of stored email values: does some
stored email equal `value` case-insensitively? -/
def emailIexactExists (emails : List String) (value : String) : Bool :=
  emails.any (fun e => lowerStr e == lowerStr value)

/-- `validar_email_unico_ci` from `core/forms.py`: raises a
`ValidationError` when some existing user's email matches `value`
case-insensitively. -/
def validar_email_unico_ci (emails : List String) (value : String) :
    Except String Unit :=
  if emailIexactExists emails value then
    Except.error
      "Ya existe un usuario con este correo (no distingue mayúsculas/minúsculas)."
  else Except.ok ()

/-- `ROL_CHOICES` from `core/forms.py`. -/
def ROL_CHOICES : List (String × String) :=
  [("Administrador", "Administrador"),
   ("Dirección", "Dirección"),
   ("Departamento", "Departamento"),
   ("Jefe de Cuadrilla", "Jefe de Cuadrilla"),
   ("Territorial", "Territorial")]

/-- Django's `forms.ChoiceField.clean` specialised to the `rol` field of
both forms (`required=True`, `choices=ROL_CHOICES`): a missing or empty
value fails the required check, a value outside the choices fails the
choice check, and a listed value is accepted. -/
def rolFieldClean (value : Option String) : Except String String :=
  let v := value.getD ""
  if v = "" then Except.error "This field is required."
  else if ROL_CHOICES.any (fun c => c.1 == v) then Except.ok v
  else Except.error
    "Select a valid choice. That choice is not one of the available choices."

/-- `UsuarioCrearForm.clean_email`: strip, require non-empty, then the
case-insensitive uniqueness check over all existing users' emails. -/
def UsuarioCrearForm.clean_email (emails : List String) (email : String) :
    Except String String :=
  let email := pyStrip email
  if email = "" then Except.error "El correo es obligatorio."
  else
    match validar_email_unico_ci emails email with
    | Except.error m => Except.error m
    | Except.ok _ => Except.ok email

/-- `UsuarioCrearForm.clean`: the list of `add_error` calls performed on
cleaned password values `p1`, `p2`. -/
def UsuarioCrearForm.clean (p1 p2 : String) : List (String × String) :=
  if p1 ≠ "" ∧ p2 ≠ "" ∧ p1 ≠ p2 then
    [("password2", "Las contraseñas no coinciden.")]
  else []

/-- The cleaned data of a valid `UsuarioCrearForm` submission. -/
structure CrearCleanedData where
  username : String
  first_name : String
  last_name : String
  email : String
  is_active : Bool
  is_staff : Bool
  password1 : String
  rol : String
deriving DecidableEq, Repr

/-- `UsuarioCrearForm.save`: build the unsaved user from the form fields
(`super().save(commit=False)`), hash the password via `set_password`, and
when `commit` holds persist it, clear its groups and add the
got-or-created role group. Returns the group table and the saved user. -/
def UsuarioCrearForm.save (db : DB) (cd : CrearCleanedData) (commit : Bool) :
    DB × User :=
  let user : User :=
    { pk := 0,
      username := cd.username,
      first_name := cd.first_name,
      last_name := cd.last_name,
      email := cd.email,
      is_active := cd.is_active,
      is_staff := cd.is_staff,
      password := StoredPassword.unset,
      groups := [] }
  let user := { user with password := StoredPassword.hashed cd.password1 }
  if commit then
    let user := { user with groups := [] }
    let dbg := db.get_or_create cd.rol
    let user := { user with groups := user.groups ++ [dbg.2] }
    (dbg.1, user)
  else (db, user)

/-- `UsuarioEditarForm.clean_email`: strip, require non-empty, then the
case-insensitive uniqueness check excluding the bound instance's own row
(`exclude(pk=self.instance.pk)`). `users` is the list of (pk, email) rows. -/
def UsuarioEditarForm.clean_email (users : List (Nat × String)) (pk : Nat)
    (email : String) : Except String String :=
  let email := pyStrip email
  if email = "" then Except.error "El correo es obligatorio."
  else if users.any (fun u => u.1 != pk && lowerStr u.2 == lowerStr email) then
    Except.error
      "Ya existe un usuario con este correo (no distingue mayúsculas/minúsculas)."
  else Except.ok email

/-- `UsuarioEditarForm.clean`: the list of `add_error` calls performed on
cleaned password values `p1`, `p2` (both optional, modelled as `""` when
left blank). -/
def UsuarioEditarForm.clean (p1 p2 : String) : List (String × String) :=
  if p1 ≠ "" ∨ p2 ≠ "" then
    if p1 = "" ∨ p2 = "" then
      [("password2", "Debes completar ambas contraseñas si vas a cambiarla.")]
    else if p1 ≠ p2 then
      [("password2", "Las contraseñas no coinciden.")]
    else []
  else []

/-- The cleaned data of a valid `UsuarioEditarForm` submission
(`password1 = ""` when the password is not being changed). -/
structure EditarCleanedData where
  username : String
  first_name : String
  last_name : String
  email : String
  is_active : Bool
  is_staff : Bool
  password1 : String
  rol : String
deriving DecidableEq, Repr

/-- `UsuarioEditarForm.save`: copy the form fields onto the bound instance
(`super().save(commit=False)`), call `set_password` only when a new
password was provided, and when `commit` holds persist, clear the groups
and add the got-or-created role group. -/
def UsuarioEditarForm.save (db : DB) (inst : User)
    (cd : EditarCleanedData) (commit : Bool) : DB × User :=
  let user :=
    { inst with
        username := cd.username,
        first_name := cd.first_name,
        last_name := cd.last_name,
        email := cd.email,
        is_active := cd.is_active,
        is_staff := cd.is_staff }
  let p1 := cd.password1
  let user :=
    if p1 ≠ "" then { user with password := StoredPassword.hashed p1 }
    else user
  if commit then
    let user := { user with groups := [] }
    let dbg := db.get_or_create cd.rol
    let user := { user with groups := user.groups ++ [dbg.2] }
    (dbg.1, user)
  else (db, user)

/-- `UsuarioToggleActivoForm.next_state_label` as a stateful method: it
returns the label together with the (unchanged) user it was given, so that
the absence of mutation is part of the statement. -/
def UsuarioToggleActivoForm.next_state_label (user : User) : String × User :=
  ((if user.is_active then "Desactivar" else "Activar"), user)

/-- `UsuarioToggleActivoForm`'s only field, `confirmar`
(`BooleanField(required=True)`): valid exactly when checked. -/
def UsuarioToggleActivoForm.clean_confirmar (confirmar : Bool) :
    Except String Bool :=
  if confirmar then Except.ok true
  else Except.error "This field is required."

/-- Whether an `Except`-valued field validation raised a user-facing
field error. -/
def fieldErrored : Except String String → Bool
  | Except.error _ => true
  | Except.ok _ => false

example : UsuarioCrearForm.clean_email [] "" =
    Except.error "El correo es obligatorio." := rfl
example : UsuarioCrearForm.clean_email ["A@b.c"] " a@B.C " =
    Except.error
      "Ya existe un usuario con este correo (no distingue mayúsculas/minúsculas)." :=
  rfl
example : UsuarioCrearForm.clean_email ["x@y.z"] " a@B.C " =
    Except.ok "a@B.C" := rfl
example : (UsuarioCrearForm.save (DB.mk ["Territorial"])
    (CrearCleanedData.mk "u" "f" "l" "e@x.y" true false "secretpw" "Dirección")
    true).2.groups = ["Dirección"] := by decide

theorem DB.get_or_create_name (db : DB) (n : String) :
    (db.get_or_create n).2 = n := by
  unfold DB.get_or_create
  split <;> rfl

theorem DB.get_or_create_mem (db : DB) (n : String) :
    n ∈ (db.get_or_create n).1.groups := by
  unfold DB.get_or_create
  split
  · next h => exact List.mem_of_elem_eq_true h
  · simp

/-- C1: for every user saved with commit=True through `UsuarioCrearForm.save`
or `UsuarioEditarForm.save`, the group membership after save is exactly the
single group named by the validated rol field (prior groups removed), and
that group exists in the group table afterwards (created if missing). -/
theorem save_assigns_exactly_rol_group (db : DB) (inst : User)
    (cd : CrearCleanedData) (ce : EditarCleanedData) :
    (UsuarioCrearForm.save db cd true).2.groups = [cd.rol] ∧
    cd.rol ∈ (UsuarioCrearForm.save db cd true).1.groups ∧
    (UsuarioEditarForm.save db inst ce true).2.groups = [ce.rol] ∧
    ce.rol ∈ (UsuarioEditarForm.save db inst ce true).1.groups := by
  unfold UsuarioCrearForm.save UsuarioEditarForm.save
  refine ⟨?_, ?_, ?_, ?_⟩ <;>
    simp [DB.get_or_create_name, DB.get_or_create_mem]

/-- C3: in both forms, when both cleaned password values are non-empty and
differ, `clean` attaches the error "Las contraseñas no coinciden." to
password2; when both are non-empty and equal, no error is added. -/
theorem clean_password_mismatch (p1 p2 : String)
    (h1 : p1 ≠ "") (h2 : p2 ≠ "") :
    (p1 ≠ p2 →
      UsuarioCrearForm.clean p1 p2 =
        [("password2", "Las contraseñas no coinciden.")] ∧
      UsuarioEditarForm.clean p1 p2 =
        [("password2", "Las contraseñas no coinciden.")]) ∧
    (p1 = p2 →
      UsuarioCrearForm.clean p1 p2 = [] ∧
      UsuarioEditarForm.clean p1 p2 = []) := by
  constructor
  · intro hne
    constructor <;> simp [UsuarioCrearForm.clean, UsuarioEditarForm.clean, h1, h2, hne]
  · intro heq
    constructor <;> simp [UsuarioCrearForm.clean, UsuarioEditarForm.clean, h1, h2, heq]

theorem clean_password_mismatch_witness :
    UsuarioCrearForm.clean "abcdefgh" "hgfedcba" =
      [("password2", "Las contraseñas no coinciden.")] ∧
    UsuarioEditarForm.clean "abcdefgh" "abcdefgh" = [] := by
  refine ⟨((clean_password_mismatch "abcdefgh" "hgfedcba" (by decide) (by decide)).1
    (by decide)).1, ?_⟩
  exact ((clean_password_mismatch "abcdefgh" "abcdefgh" (by decide) (by decide)).2 rfl).2

/-- C4: in `UsuarioEditarForm.clean`, providing exactly one of the two
password values yields a field error on password2, while leaving both
empty yields no error. -/
theorem editar_clean_incomplete_password_pair (p1 p2 : String) :
    ((p1 ≠ "" ∧ p2 = "") ∨ (p1 = "" ∧ p2 ≠ "") →
      UsuarioEditarForm.clean p1 p2 =
        [("password2", "Debes completar ambas contraseñas si vas a cambiarla.")]) ∧
    (p1 = "" → p2 = "" → UsuarioEditarForm.clean p1 p2 = []) := by
  constructor
  · rintro (⟨h1, h2⟩ | ⟨h1, h2⟩) <;> simp [UsuarioEditarForm.clean, h1, h2]
  · intro h1 h2
    simp [UsuarioEditarForm.clean, h1, h2]

theorem editar_clean_incomplete_password_pair_witness :
    UsuarioEditarForm.clean "" "abcdefgh" =
      [("password2", "Debes completar ambas contraseñas si vas a cambiarla.")] ∧
    UsuarioEditarForm.clean "" "" = [] :=
  ⟨(editar_clean_incomplete_password_pair "" "abcdefgh").1 (Or.inr ⟨rfl, by decide⟩),
   (editar_clean_incomplete_password_pair "" "").2 rfl rfl⟩

/-- C5: in both forms, an email value that is empty after stripping
whitespace fails `clean_email` with the field error
"El correo es obligatorio.". -/
theorem clean_email_empty_rejected (emails : List String)
    (users : List (Nat × String)) (pk : Nat) (email : String)
    (h : pyStrip email = "") :
    UsuarioCrearForm.clean_email emails email =
      Except.error "El correo es obligatorio." ∧
    UsuarioEditarForm.clean_email users pk email =
      Except.error "El correo es obligatorio." := by
  constructor <;>
    simp [UsuarioCrearForm.clean_email, UsuarioEditarForm.clean_email, h]

theorem clean_email_empty_rejected_witness :
    UsuarioCrearForm.clean_email ["a@b.c"] "   " =
      Except.error "El correo es obligatorio." ∧
    UsuarioEditarForm.clean_email [(1, "a@b.c")] 2 "   " =
      Except.error "El correo es obligatorio." :=
  clean_email_empty_rejected ["a@b.c"] [(1, "a@b.c")] 2 "   " (by decide)

/-- C6: every user built by `UsuarioCrearForm.save` carries the password
produced by `set_password` on the validated password1 (a `.hashed` value);
the cleartext is never assigned directly (never a `.raw` value). -/
theorem crear_save_delegates_password_hashing (db : DB)
    (cd : CrearCleanedData) (commit : Bool) :
    (UsuarioCrearForm.save db cd commit).2.password =
      StoredPassword.hashed cd.password1 ∧
    ∀ s, (UsuarioCrearForm.save db cd commit).2.password ≠
      StoredPassword.raw s := by
  unfold UsuarioCrearForm.save
  cases commit <;> simp

/-- C9: `UsuarioEditarForm.save` with a blank password1 leaves the stored
password untouched while still updating username, names, email, the
active/staff flags and the group membership. -/
theorem editar_save_blank_password_frame (db : DB) (inst : User)
    (cd : EditarCleanedData) (h : cd.password1 = "") :
    (UsuarioEditarForm.save db inst cd true).2.password = inst.password ∧
    (UsuarioEditarForm.save db inst cd true).2.username = cd.username ∧
    (UsuarioEditarForm.save db inst cd true).2.first_name = cd.first_name ∧
    (UsuarioEditarForm.save db inst cd true).2.last_name = cd.last_name ∧
    (UsuarioEditarForm.save db inst cd true).2.email = cd.email ∧
    (UsuarioEditarForm.save db inst cd true).2.is_active = cd.is_active ∧
    (UsuarioEditarForm.save db inst cd true).2.is_staff = cd.is_staff ∧
    (UsuarioEditarForm.save db inst cd true).2.groups = [cd.rol] := by
  unfold UsuarioEditarForm.save
  simp [h, DB.get_or_create_name]

theorem editar_save_blank_password_frame_witness :
    (UsuarioEditarForm.save (DB.mk ["Territorial"])
      (User.mk 7 "old" "Old" "Name" "old@x.y" false true
        (StoredPassword.hashed "oldpassword") ["Territorial"])
      (EditarCleanedData.mk "new" "New" "Apellido" "new@x.y" true false
        "" "Dirección") true).2.password = StoredPassword.hashed "oldpassword" :=
  (editar_save_blank_password_frame (DB.mk ["Territorial"])
    (User.mk 7 "old" "Old" "Name" "old@x.y" false true
      (StoredPassword.hashed "oldpassword") ["Territorial"])
    (EditarCleanedData.mk "new" "New" "Apellido" "new@x.y" true false
      "" "Dirección") rfl).1

/-- C10: `UsuarioToggleActivoForm.next_state_label` yields "Desactivar"
exactly when the user is active and "Activar" exactly when not, and it
returns the user unchanged (the toggle form modifies no user data). -/
theorem toggle_next_state_label_spec (u : User) :
    ((UsuarioToggleActivoForm.next_state_label u).1 = "Desactivar" ↔
      u.is_active = true) ∧
    ((UsuarioToggleActivoForm.next_state_label u).1 = "Activar" ↔
      u.is_active = false) ∧
    (UsuarioToggleActivoForm.next_state_label u).2 = u := by
  unfold UsuarioToggleActivoForm.next_state_label
  cases h : u.is_active <;> simp

theorem fieldErrored_ite (c : Prop) [Decidable c] (v m : String) :
    fieldErrored (if c then Except.ok v else Except.error m) = false ↔ c := by
  split <;> simp [fieldErrored, *]

/-- C7: the rol field of both forms validates exactly the five role names
of `ROL_CHOICES`; any other value, the empty value, or a missing value is
rejected. -/
theorem rol_choice_validation (v : Option String) :
    fieldErrored (rolFieldClean v) = false ↔
      (v = some "Administrador" ∨ v = some "Dirección" ∨
       v = some "Departamento" ∨ v = some "Jefe de Cuadrilla" ∨
       v = some "Territorial") := by
  cases v with
  | none => simp [rolFieldClean, fieldErrored]
  | some s =>
    by_cases h : s = ""
    · subst h
      simp [rolFieldClean, fieldErrored]
    · simp only [rolFieldClean, Option.getD_some, if_neg h, fieldErrored_ite]
      simp only [ROL_CHOICES, List.any_cons, List.any_nil, Bool.or_eq_true,
        Bool.or_false, beq_iff_eq, Option.some.injEq]
      constructor <;> rintro (h5 | h5 | h5 | h5 | h5) <;> simp [h5]

/-- C8: with a non-empty stripped email, `UsuarioEditarForm.clean_email`
accepts exactly when no OTHER user (a row whose pk differs from the bound
instance's pk) has a case-insensitively equal email: the instance's own
row is excluded, so resubmitting the user's own email in any letter case
passes, while matching any other user's email fails. -/
theorem editar_clean_email_excludes_self (users : List (Nat × String))
    (pk : Nat) (email : String) (h : ¬ pyStrip email = "") :
    (UsuarioEditarForm.clean_email users pk email =
        Except.ok (pyStrip email) ↔
      ∀ u ∈ users, u.1 ≠ pk → lowerStr u.2 ≠ lowerStr (pyStrip email)) ∧
    (UsuarioEditarForm.clean_email users pk email =
        Except.error
          "Ya existe un usuario con este correo (no distingue mayúsculas/minúsculas)." ↔
      ∃ u ∈ users, u.1 ≠ pk ∧ lowerStr u.2 = lowerStr (pyStrip email)) := by
  have key : (users.any
        (fun u => u.1 != pk && lowerStr u.2 == lowerStr (pyStrip email)) = true) ↔
      ∃ u ∈ users, u.1 ≠ pk ∧ lowerStr u.2 = lowerStr (pyStrip email) := by
    simp
  by_cases hc : users.any
      (fun u => u.1 != pk && lowerStr u.2 == lowerStr (pyStrip email)) = true
  · have hex := key.mp hc
    have hval : UsuarioEditarForm.clean_email users pk email =
        Except.error
          "Ya existe un usuario con este correo (no distingue mayúsculas/minúsculas)." := by
      simp [UsuarioEditarForm.clean_email, h, hc]
    refine ⟨⟨fun hok => ?_, fun hall => ?_⟩, ⟨fun _ => hex, fun _ => hval⟩⟩
    · rw [hval] at hok
      exact Except.noConfusion hok
    · obtain ⟨u, hu, hne, heq⟩ := hex
      exact absurd heq (hall u hu hne)
  · have hnot : ¬ ∃ u ∈ users, u.1 ≠ pk ∧ lowerStr u.2 = lowerStr (pyStrip email) :=
      fun hex => hc (key.mpr hex)
    have hval : UsuarioEditarForm.clean_email users pk email =
        Except.ok (pyStrip email) := by
      simp [UsuarioEditarForm.clean_email, h, hc]
    refine ⟨⟨fun _ u hu hne heq => hnot ⟨u, hu, hne, heq⟩, fun _ => hval⟩,
      ⟨fun herr => ?_, fun hex => absurd hex hnot⟩⟩
    rw [hval] at herr
    exact Except.noConfusion herr

theorem editar_clean_email_excludes_self_witness :
    UsuarioEditarForm.clean_email [(1, "a@b.c"), (2, "x@y.z")] 1 " A@B.C " =
      Except.ok "A@B.C" :=
  ((editar_clean_email_excludes_self [(1, "a@b.c"), (2, "x@y.z")] 1 " A@B.C "
    (by decide)).1).mpr (by decide)

/-- C2 (counterexample): with no existing users and an empty submitted
email, `UsuarioCrearForm` email validation fails even though no existing
user's stored email equals the submission case-insensitively, refuting
the claimed equivalence between failure and the existence of a
case-insensitive duplicate. -/
theorem crear_email_iff_counterexample :
    fieldErrored (UsuarioCrearForm.clean_email [] "") = true ∧
    emailIexactExists [] "" = false := by decide

/-- C2 (amended): `UsuarioCrearForm` email validation fails exactly when
the submitted email is empty after stripping whitespace or some existing
user's stored email equals the stripped submission case-insensitively;
when neither holds, the stripped email is accepted unchanged. -/
theorem crear_email_validation_characterisation (emails : List String)
    (email : String) :
    (fieldErrored (UsuarioCrearForm.clean_email emails email) = true ↔
      (pyStrip email = "" ∨ emailIexactExists emails (pyStrip email) = true)) ∧
    (¬ pyStrip email = "" → emailIexactExists emails (pyStrip email) = false →
      UsuarioCrearForm.clean_email emails email = Except.ok (pyStrip email)) := by
  constructor
  · by_cases h1 : pyStrip email = ""
    · simp [UsuarioCrearForm.clean_email, fieldErrored, h1]
    · by_cases h2 : emailIexactExists emails (pyStrip email) = true
      · simp [UsuarioCrearForm.clean_email, validar_email_unico_ci,
          fieldErrored, h1, h2]
      · simp [UsuarioCrearForm.clean_email, validar_email_unico_ci,
          fieldErrored, h1, h2]
  · intro h1 h2
    simp [UsuarioCrearForm.clean_email, validar_email_unico_ci, h1, h2]

theorem crear_email_validation_characterisation_witness :
    UsuarioCrearForm.clean_email ["x@y.z"] " A@b.C " = Except.ok "A@b.C" :=
  (crear_email_validation_characterisation ["x@y.z"] " A@b.C ").2
    (by decide) (by decide)
